import Mathlib

/-!
Verification of the wilton_pdf pre-flight image-validation subsystem.

Shallow embedding of `src/png_checker.hpp`, `src/jpeg_checker.hpp` and the
image/registry-relevant parts of `src/wiltoncall_pdf.cpp`.

Modelling conventions:
- byte buffers are `List Nat`; `sl::io::span<char>` / `sl::io::array_source`
  become `List Nat` / `ArraySource` (data plus read cursor);
- C++ exceptions become `Except String`; the `TRACEMSG` file/line prefix and
  the single-quote marks around parameter names in the C++ message text are
  omitted (they carry no information the claims depend on);
- the third-party decoders (libpng, libjpeg, libharu) are not code of this
  repository; their per-call behaviour is abstracted as explicit oracle
  structures (`PngLibBehavior`, `JpegLibBehavior`, `HaruLib`), while every
  piece of repository code (signature check, width ceiling, read callback
  loop, error mapping, format dispatch, registry discipline) is embedded
  concretely;
- the C++ `defer`/RAII cleanups and the `setjmp`/`longjmp` error channel are
  encoded by making every exit path of the embedded function return the
  corresponding cleanup event in its trace;
- the local `std::array<char, 8> sigbuf` is default-initialized in the
  source, so its contents before `read_all` writes into it are indeterminate;
  the embedding makes these indeterminate bytes an explicit `junk` parameter.
-/

set_option linter.unusedVariables false

namespace WiltonPdf

/-- The 8-byte PNG signature that `png_sig_cmp` compares against. -/
def pngSignature : List Nat := [137, 80, 78, 71, 13, 10, 26, 10]

/-- Model of `sl::io::array_source`: an immutable byte buffer plus a read cursor. -/
structure ArraySource where
  data : List Nat
  pos : Nat
deriving DecidableEq

/-- Model of `sl::io::read_all` on an `array_source`: deliver
`min n remaining` bytes and advance the cursor; it never throws and returns
the number of bytes actually read (possibly short). -/
def ArraySource.readAll (src : ArraySource) (n : Nat) : List Nat × ArraySource :=
  let taken := (src.data.drop src.pos).take n
  (taken, { data := src.data, pos := src.pos + taken.length })

/-- Number of bytes the source still holds. -/
def ArraySource.remaining (src : ArraySource) : Nat :=
  src.data.length - src.pos

/-- Result of one `sl::io::read_all` call on a generic source, as seen from
inside the `try` block of `png_src_read_cb`: either bytes were delivered
(possibly fewer than requested), or a C++ exception was raised. -/
inductive ReadRes (σ : Type) where
  | bytes (bs : List Nat) (next : σ)
  | exn (msg : String)

/-- Generic read operation a source offers to the callback loop. -/
def ReadFn (σ : Type) : Type := σ → Nat → ReadRes σ

/-- Instantiation of `ReadFn` by `sl::io::array_source`: pure, never raises. -/
def array_read : ReadFn ArraySource := fun src n =>
  ReadRes.bytes (src.readAll n).1 (src.readAll n).2

/-- Outcome of the copy loop inside `png_src_read_cb`. -/
inductive LoopRes (σ : Type) where
  /-- An exception escaped the loop body into the `catch` handler. -/
  | thrown (msg : String)
  /-- The source ran short: `out` is the destination content (delivered
  prefix, then the zero-filled remainder), `readActual` the byte count of the
  failing `read_all`, `alreadyRead` the bytes delivered so far. -/
  | shortfall (out : List Nat) (readActual : Nat) (alreadyRead : Nat)
  /-- Every requested byte was delivered. -/
  | full (out : List Nat) (next : σ)

/-- The shortfall diagnostic built in `png_src_read_cb`
(`jpeg`-independent, `TRACEMSG` prefix omitted). -/
def shortfallMsg (requested readActual alreadyRead : Nat) : String :=
  "Not enough data in input PNG buffer, bytes requested: [" ++ toString requested ++
    "], read actual: [" ++ toString readActual ++
    "], already read: [" ++ toString alreadyRead ++ "]"

/-- The `while(to_read - count > 0)` copy loop of `png_src_read_cb`: copy in
chunks of at most 1024 bytes (the `std::array<char, 1024>` bounce buffer);
a full chunk is appended to the destination, a short read zero-fills the
remainder (`memset(out_ptr + count, 0, to_read_max)`) and stops, an exception
aborts the loop. -/
def cbLoop {σ : Type} (rd : ReadFn σ) (src : σ) (toRead count : Nat)
    (acc : List Nat) : LoopRes σ :=
  if h : 0 < toRead - count then
    match rd src (if toRead - count ≤ 1024 then toRead - count else 1024) with
    | ReadRes.exn m => LoopRes.thrown m
    | ReadRes.bytes bs src2 =>
      if hb : bs.length = (if toRead - count ≤ 1024 then toRead - count else 1024) then
        cbLoop rd src2 toRead (count + bs.length) (acc ++ bs)
      else
        LoopRes.shortfall (acc ++ List.replicate (toRead - count) 0) bs.length count
  else LoopRes.full acc src
termination_by toRead - count
decreasing_by
  rw [hb]
  split <;> omega

/-- Result of `png_src_read_cb` as observed by libpng: either a normal
return with the destination filled, or a `png_error` escalation (which in
the source longjmps through the error hook and never returns). The callback
is `STATICLIB_NOEXCEPT` and wraps the copy loop in `try`/`catch`, so its
result type has no exception alternative: an exception cannot cross the
decoder's call frame. -/
inductive CbRes (σ : Type) where
  | ret (out : List Nat) (next : σ)
  | pngError (out : List Nat) (msg : String)

/-- Model of `png_src_read_cb` (`png_checker.hpp` lines 45-83; the identical
copy in `wiltoncall_pdf.cpp` lines 74-112): run the copy loop; on an
exception zero-fill the whole destination and escalate with the exception
message; on a shortfall append the shortfall diagnostic to the read
context's error message and escalate; otherwise escalate if and only if the
error message was already non-empty. The `nullptr == src_ptr` guard models a
libpng state the embedding cannot produce and is omitted. -/
def png_src_read_cb {σ : Type} (rd : ReadFn σ) (src : σ) (errmsg : String)
    (toRead : Nat) : CbRes σ :=
  match cbLoop rd src toRead 0 [] with
  | LoopRes.thrown m => CbRes.pngError (List.replicate toRead 0) m
  | LoopRes.shortfall out r c =>
      CbRes.pngError out (errmsg ++ shortfallMsg toRead r c)
  | LoopRes.full out src2 =>
      if errmsg = "" then CbRes.ret out src2 else CbRes.pngError out errmsg

/-- Per-call behaviour of libpng (third-party, not repository code) as the
validator observes it: whether the two struct-creation calls return non-null
pointers, the outcome of the `png_read_info` / `png_read_update_info` phase
(either a `longjmp` with the accumulated error-context message, or the image
height and width), and the outcome of the row/end-reading phase. -/
structure PngLibBehavior where
  create_read_ok : Bool
  info_ok : Bool
  read_info : List Nat → Except String (Nat × Nat)
  read_rows_end : List Nat → Nat → Nat → Except String Unit

/-- Observable resource events of one `check_png_valid` call. -/
inductive PngEvent where
  /-- `png_create_read_struct` returned a live decoder session. -/
  | create_read
  /-- `row.resize(width)`: the row buffer was sized. -/
  | row_resize (width : Nat)
  /-- `png_destroy_read_struct` ran (the `defer` cleanup). -/
  | destroy
deriving DecidableEq

/-- True exactly on `row_resize` events. -/
def PngEvent.is_row_resize : PngEvent → Bool
  | PngEvent.row_resize _ => true
  | _ => false

namespace png_checker

/-- Model of `check_png_valid` from `png_checker.hpp` lines 102-159: build an
`array_source` over the span, read 8 signature bytes (the short-read count of
`read_all` is ignored, so the unwritten tail of `sigbuf` keeps its
indeterminate initial content `junk`), compare against the PNG signature,
create the decoder session, and inside the `setjmp` region read the info,
reject widths above `1<<16`, size the row buffer, read all rows and the end
info; a `longjmp` surfaces as `PNG read error, message: [...]`. Every exit
path after session creation ends with the `defer` destroy event. -/
def check_png_valid (junk : List Nat) (lib : PngLibBehavior) (span : List Nat) :
    Except String Unit × List PngEvent :=
  let src : ArraySource := { data := span, pos := 0 }
  let step := src.readAll 8
  let sigbuf := step.1 ++ junk.drop step.1.length
  if sigbuf = pngSignature then
    if lib.create_read_ok then
      if lib.info_ok then
        match lib.read_info (step.2.data.drop step.2.pos) with
        | Except.error m =>
            (Except.error ("PNG read error, message: [" ++ m ++ "]"),
              [PngEvent.create_read, PngEvent.destroy])
        | Except.ok (height, width) =>
            if width > 65536 then
              (Except.error ("PNG error, invalid image width: [" ++ toString width ++ "]"),
                [PngEvent.create_read, PngEvent.destroy])
            else
              match lib.read_rows_end (step.2.data.drop step.2.pos) height width with
              | Except.error m =>
                  (Except.error ("PNG read error, message: [" ++ m ++ "]"),
                    [PngEvent.create_read, PngEvent.row_resize width, PngEvent.destroy])
              | Except.ok _ =>
                  (Except.ok (),
                    [PngEvent.create_read, PngEvent.row_resize width, PngEvent.destroy])
      else (Except.error "Error creating PNG structs", [PngEvent.create_read, PngEvent.destroy])
    else (Except.error "Error creating PNG read struct", [])
  else (Except.error "Invalid PNG signature", [])

end png_checker

/-- Per-call behaviour of libjpeg (third-party, not repository code): the
whole `jpeg_read_header` / `jpeg_start_decompress` / scanline /
`jpeg_finish_decompress` phase either completes or longjmps through the
error-exit override; on the error path the payload is the decoder's own
formatted diagnostic (`format_message`, trimmed to its actual length). -/
structure JpegLibBehavior where
  decode : List Nat → Except String Unit

/-- Observable resource events of one `check_jpeg_valid` call. -/
inductive JpegEvent where
  /-- `jpeg_create_decompress` ran. -/
  | create_decompress
  /-- `jpeg_destroy_decompress` ran (the `defer` cleanup). -/
  | destroy_decompress
deriving DecidableEq

namespace jpeg_checker

/-- Model of `check_jpeg_valid` from `jpeg_checker.hpp` lines 60-91: create
the decompress struct (with the error manager overriding `error_exit` and
silencing `output_message`), bind the memory source, and decode inside the
`setjmp` region; a longjmp surfaces as `JPEG read error, message: [...]`
built from the decoder's formatted diagnostic. The `defer` destroy runs on
both exit paths. -/
def check_jpeg_valid (lib : JpegLibBehavior) (span : List Nat) :
    Except String Unit × List JpegEvent :=
  match lib.decode span with
  | Except.ok _ =>
      (Except.ok (), [JpegEvent.create_decompress, JpegEvent.destroy_decompress])
  | Except.error m =>
      (Except.error ("JPEG read error, message: [" ++ m ++ "]"),
        [JpegEvent.create_decompress, JpegEvent.destroy_decompress])

end jpeg_checker

/-- State-threading wrapper for `png_checker.check_png_valid`: the second
component is the caller's buffer as left behind by the call. It equals the
input buffer because no statement of the source function writes through the
span (the validator borrows it read-only): the signature bytes and all
decoder input are copied out of it, never into it. -/
def check_png_valid_run (junk : List Nat) (lib : PngLibBehavior)
    (buffer : List Nat) : (Except String Unit × List PngEvent) × List Nat :=
  (png_checker.check_png_valid junk lib buffer, buffer)

/-- State-threading wrapper for `jpeg_checker.check_jpeg_valid`, mirroring
`check_png_valid_run`: `check_jpeg_valid` never writes the buffer either
(`jpeg_mem_src` only reads it). -/
def check_jpeg_valid_run (lib : JpegLibBehavior) (buffer : List Nat) :
    (Except String Unit × List JpegEvent) × List Nat :=
  (jpeg_checker.check_jpeg_valid lib buffer, buffer)

/-- Observable events of the image-loading/drawing path in
`wiltoncall_pdf.cpp`. `validate_jpeg` is included as a possible event so that
its absence from every trace is expressible; the source contains no call
site that would emit it. -/
inductive CallEvent where
  /-- The local copy of `check_png_valid` was invoked. -/
  | validate_png
  /-- `check_jpeg_valid` was invoked (no call site exists in the source). -/
  | validate_jpeg
  /-- `HPDF_LoadPngImageFromMem` was invoked. -/
  | load_png
  /-- `HPDF_LoadJpegImageFromMem` was invoked. -/
  | load_jpeg
  /-- `HPDF_Page_DrawImage` mutated the current page. -/
  | page_draw
deriving DecidableEq

/-- Per-call behaviour of libharu (third-party, not repository code) as
`draw_image` observes it: the two image loaders either return an image
handle or fail through the document's error callback (which the module
installs in `HPDF_New` to throw), `HPDF_GetCurrentPage` either yields a page
or null, and `HPDF_Page_DrawImage` either succeeds (mutating the page) or
fails through the same throwing error callback. Modelled from the spec:
libharu is the external PDF image loader invoked only after validation; the
spec treats a failing draw as not mutating page content (atomic failure). -/
structure HaruLib where
  load_png_image : List Nat → Except String Nat
  load_jpeg_image : List Nat → Except String Nat
  get_current_page_ok : Bool
  draw_image_res : Except String Unit

namespace wiltoncall

/-- Model of the `check_png_valid` copy embedded in `wiltoncall_pdf.cpp`
lines 129-185: identical to `png_checker.check_png_valid` except that the
caller hands in the `array_source` (by value) instead of a span. -/
def check_png_valid (junk : List Nat) (lib : PngLibBehavior) (src : ArraySource) :
    Except String Unit × List PngEvent :=
  let step := src.readAll 8
  let sigbuf := step.1 ++ junk.drop step.1.length
  if sigbuf = pngSignature then
    if lib.create_read_ok then
      if lib.info_ok then
        match lib.read_info (step.2.data.drop step.2.pos) with
        | Except.error m =>
            (Except.error ("PNG read error, message: [" ++ m ++ "]"),
              [PngEvent.create_read, PngEvent.destroy])
        | Except.ok (height, width) =>
            if width > 65536 then
              (Except.error ("PNG error, invalid image width: [" ++ toString width ++ "]"),
                [PngEvent.create_read, PngEvent.destroy])
            else
              match lib.read_rows_end (step.2.data.drop step.2.pos) height width with
              | Except.error m =>
                  (Except.error ("PNG read error, message: [" ++ m ++ "]"),
                    [PngEvent.create_read, PngEvent.row_resize width, PngEvent.destroy])
              | Except.ok _ =>
                  (Except.ok (),
                    [PngEvent.create_read, PngEvent.row_resize width, PngEvent.destroy])
      else (Except.error "Error creating PNG structs", [PngEvent.create_read, PngEvent.destroy])
    else (Except.error "Error creating PNG read struct", [])
  else (Except.error "Invalid PNG signature", [])

/-- Model of `load_image_from_hex` (`wiltoncall_pdf.cpp` lines 187-211).
The hex-to-binary conversion uses `sl::io::make_hex_source` (external
staticlib code, not in this repository), so its outcome is the oracle
argument `hex_decoded`: either the decoded binary buffer or the exception the
conversion raised. Then: reject a format tag other than `PNG`/`JPEG`; for
`PNG` run the local `check_png_valid` on a fresh `array_source` over the
binary buffer, then hand the binary buffer to `HPDF_LoadPngImageFromMem`;
for `JPEG` hand the buffer directly to `HPDF_LoadJpegImageFromMem` — the
source performs no JPEG validation. -/
def load_image_from_hex (junk : List Nat) (pnglib : PngLibBehavior)
    (haru : HaruLib) (hex_decoded : Except String (List Nat)) (format : String) :
    Except String Nat × List CallEvent :=
  match hex_decoded with
  | Except.error m => (Except.error m, [])
  | Except.ok bin =>
    if format = "PNG" ∨ format = "JPEG" then
      if format = "PNG" then
        match check_png_valid junk pnglib { data := bin, pos := 0 } with
        | (Except.error m, _) => (Except.error m, [CallEvent.validate_png])
        | (Except.ok _, _) =>
          match haru.load_png_image bin with
          | Except.error m => (Except.error m, [CallEvent.validate_png, CallEvent.load_png])
          | Except.ok img => (Except.ok img, [CallEvent.validate_png, CallEvent.load_png])
      else
        match haru.load_jpeg_image bin with
        | Except.error m => (Except.error m, [CallEvent.load_jpeg])
        | Except.ok img => (Except.ok img, [CallEvent.load_jpeg])
    else (Except.error ("Invalid imageFormat specified: [" ++ format ++ "]"), [])

end wiltoncall

/-- Modelled from the spec: the document handle registry
(`wilton/support/unique_handle_registry.hpp`, not in this repository) is an
external collaborator providing `put(resource) -> handle` and
`remove(handle) -> resource | not-found`. A resource is identified by its
address, and the handle is that identity, so re-`put`ting a removed document
yields the same handle. Documents are modelled by their identity (`Int`). -/
def Registry : Type := Int → Option Int

/-- Registry lookup is well-formed when every stored document's identity is
the handle it is stored under (handles are the documents' addresses). -/
def Registry.wellformed (reg : Registry) : Prop :=
  ∀ h d, reg h = some d → d = h

/-- Modelled from the spec: `remove(handle)` hands the resource (if present)
to the caller and drops it from the registry. -/
def Registry.remove (reg : Registry) (h : Int) : Option Int × Registry :=
  match reg h with
  | none => (none, reg)
  | some d => (some d, fun h2 => if h2 = h then none else reg h2)

/-- Modelled from the spec: `put(resource)` stores the resource under the
handle given by its identity. -/
def Registry.put (reg : Registry) (d : Int) : Registry :=
  fun h2 => if h2 = d then some d else reg h2

namespace wiltoncall

/-- Model of `load_font` (`wiltoncall_pdf.cpp` lines 255-288). The JSON
parse and required-field checks (lines 256-274, which touch no registry
state and either throw or yield the handle) are the oracle `parse`; the
`HPDF_LoadTTFontFromFile` call after the put-back `defer` (which may throw
through the haru error callback) is the oracle `body`. On a successful
`remove` the `defer` puts the document back on every exit path. -/
def load_font (parse : Except String Int) (body : Except String Unit)
    (reg : Registry) : Except String Unit × Registry :=
  match parse with
  | Except.error m => (Except.error m, reg)
  | Except.ok handle =>
    match reg.remove handle with
    | (none, _) => (Except.error "Invalid pdfDocumentHandle parameter specified", reg)
    | (some doc, reg1) =>
      match body with
      | Except.error m => (Except.error m, reg1.put doc)
      | Except.ok _ => (Except.ok (), reg1.put doc)

/-- Model of `add_page` (lines 290-370); same registry skeleton as
`load_font`, with the parse prologue (lines 291-329) and the page-format
dispatch plus `HPDF_AddPage`/size calls after the `defer` (lines 338-368)
as oracles. -/
def add_page (parse : Except String Int) (body : Except String Unit)
    (reg : Registry) : Except String Unit × Registry :=
  match parse with
  | Except.error m => (Except.error m, reg)
  | Except.ok handle =>
    match reg.remove handle with
    | (none, _) => (Except.error "Invalid pdfDocumentHandle parameter specified", reg)
    | (some doc, reg1) =>
      match body with
      | Except.error m => (Except.error m, reg1.put doc)
      | Except.ok _ => (Except.ok (), reg1.put doc)

/-- Model of `write_text` (lines 372-436); same registry skeleton, with the
parse prologue and the current-page/font/text haru calls as oracles. -/
def write_text (parse : Except String Int) (body : Except String Unit)
    (reg : Registry) : Except String Unit × Registry :=
  match parse with
  | Except.error m => (Except.error m, reg)
  | Except.ok handle =>
    match reg.remove handle with
    | (none, _) => (Except.error "Invalid pdfDocumentHandle parameter specified", reg)
    | (some doc, reg1) =>
      match body with
      | Except.error m => (Except.error m, reg1.put doc)
      | Except.ok _ => (Except.ok (), reg1.put doc)

/-- Model of `write_text_inside_rectangle` (lines 438-530); same registry
skeleton, with the parse prologue and the alignment/current-page/text-rect
haru calls as oracles. -/
def write_text_inside_rectangle (parse : Except String Int)
    (body : Except String Unit) (reg : Registry) :
    Except String Unit × Registry :=
  match parse with
  | Except.error m => (Except.error m, reg)
  | Except.ok handle =>
    match reg.remove handle with
    | (none, _) => (Except.error "Invalid pdfDocumentHandle parameter specified", reg)
    | (some doc, reg1) =>
      match body with
      | Except.error m => (Except.error m, reg1.put doc)
      | Except.ok _ => (Except.ok (), reg1.put doc)

/-- Model of `draw_line` (lines 532-591); same registry skeleton, with the
parse prologue and the stroke calls as oracles. -/
def draw_line (parse : Except String Int) (body : Except String Unit)
    (reg : Registry) : Except String Unit × Registry :=
  match parse with
  | Except.error m => (Except.error m, reg)
  | Except.ok handle =>
    match reg.remove handle with
    | (none, _) => (Except.error "Invalid pdfDocumentHandle parameter specified", reg)
    | (some doc, reg1) =>
      match body with
      | Except.error m => (Except.error m, reg1.put doc)
      | Except.ok _ => (Except.ok (), reg1.put doc)

/-- Model of `draw_rectangle` (lines 593-651); same registry skeleton, with
the parse prologue and the rectangle stroke calls as oracles. -/
def draw_rectangle (parse : Except String Int) (body : Except String Unit)
    (reg : Registry) : Except String Unit × Registry :=
  match parse with
  | Except.error m => (Except.error m, reg)
  | Except.ok handle =>
    match reg.remove handle with
    | (none, _) => (Except.error "Invalid pdfDocumentHandle parameter specified", reg)
    | (some doc, reg1) =>
      match body with
      | Except.error m => (Except.error m, reg1.put doc)
      | Except.ok _ => (Except.ok (), reg1.put doc)

/-- Model of `save_to_file` (lines 720-751); same registry skeleton, with
the parse prologue and the `HPDF_SaveToFile` call as oracles. -/
def save_to_file (parse : Except String Int) (body : Except String Unit)
    (reg : Registry) : Except String Unit × Registry :=
  match parse with
  | Except.error m => (Except.error m, reg)
  | Except.ok handle =>
    match reg.remove handle with
    | (none, _) => (Except.error "Invalid pdfDocumentHandle parameter specified", reg)
    | (some doc, reg1) =>
      match body with
      | Except.error m => (Except.error m, reg1.put doc)
      | Except.ok _ => (Except.ok (), reg1.put doc)

/-- Model of `draw_image` (`wiltoncall_pdf.cpp` lines 653-718): parse the
request (oracle `parse`, lines 654-698), remove the document from the
registry, set up the put-back `defer`, fetch the current page
(`HPDF_GetCurrentPage`, null when the document has no page), run
`load_image_from_hex`, and finally `HPDF_Page_DrawImage`. The result carries
the final registry and the event trace of the image path. -/
def draw_image (parse : Except String Int) (junk : List Nat)
    (pnglib : PngLibBehavior) (haru : HaruLib)
    (hex_decoded : Except String (List Nat)) (format : String)
    (reg : Registry) : Except String Unit × Registry × List CallEvent :=
  match parse with
  | Except.error m => (Except.error m, reg, [])
  | Except.ok handle =>
    match reg.remove handle with
    | (none, _) => (Except.error "Invalid pdfDocumentHandle parameter specified", reg, [])
    | (some doc, reg1) =>
      if haru.get_current_page_ok then
        match load_image_from_hex junk pnglib haru hex_decoded format with
        | (Except.error m, evs) => (Except.error m, reg1.put doc, evs)
        | (Except.ok _, evs) =>
          match haru.draw_image_res with
          | Except.error m => (Except.error m, reg1.put doc, evs)
          | Except.ok _ => (Except.ok (), reg1.put doc, evs ++ [CallEvent.page_draw])
      else
        (Except.error "PDF generation error, cannot access current page, please add at least one page to the document first",
          reg1.put doc, [])

/-- Model of `destroy_document` (lines 753-775): parse the handle, remove
the document from the registry and `HPDF_Free` it; there is no put-back.
The boolean records whether `HPDF_Free` ran. -/
def destroy_document (parse : Except String Int) (reg : Registry) :
    Except String Unit × Registry × Bool :=
  match parse with
  | Except.error m => (Except.error m, reg, false)
  | Except.ok handle =>
    match reg.remove handle with
    | (none, _) => (Except.error "Invalid pdfDocumentHandle parameter specified", reg, false)
    | (some doc, reg1) => (Except.ok (), reg1, true)

end wiltoncall

/-- Registry-preservation property of the document operations that remove
and put back (the conclusion of claim C10, packaged so a witness can state
it at a concrete registry): every such operation leaves the registry
pointwise unchanged on every exit path, and `destroy_document` on a valid
handle removes exactly that handle and frees the document. -/
def registry_discipline (reg : Registry) : Prop :=
  (∀ p b h2, (wiltoncall.load_font p b reg).2 h2 = reg h2) ∧
  (∀ p b h2, (wiltoncall.add_page p b reg).2 h2 = reg h2) ∧
  (∀ p b h2, (wiltoncall.write_text p b reg).2 h2 = reg h2) ∧
  (∀ p b h2, (wiltoncall.write_text_inside_rectangle p b reg).2 h2 = reg h2) ∧
  (∀ p b h2, (wiltoncall.draw_line p b reg).2 h2 = reg h2) ∧
  (∀ p b h2, (wiltoncall.draw_rectangle p b reg).2 h2 = reg h2) ∧
  (∀ p b h2, (wiltoncall.save_to_file p b reg).2 h2 = reg h2) ∧
  (∀ p junk pnglib haru hx fmt h2,
    (wiltoncall.draw_image p junk pnglib haru hx fmt reg).2.1 h2 = reg h2) ∧
  (∀ h d, reg h = some d →
    (wiltoncall.destroy_document (Except.ok h) reg).2.1 h = none ∧
    (∀ h2, h2 ≠ h → (wiltoncall.destroy_document (Except.ok h) reg).2.1 h2 = reg h2) ∧
    (wiltoncall.destroy_document (Except.ok h) reg).2.2 = true)

/-- Benign libpng oracle used by concrete instantiations: creation succeeds
and decoding reports a 1 by 1 image. -/
def lib_ok : PngLibBehavior where
  create_read_ok := true
  info_ok := true
  read_info := fun _ => Except.ok (1, 1)
  read_rows_end := fun _ _ _ => Except.ok ()

/-- Libpng oracle whose header reports width 65537. -/
def lib_wide : PngLibBehavior :=
  { lib_ok with read_info := fun _ => Except.ok (1, 65537) }

/-- Libpng oracle that fails during the info phase with a shortfall message,
the behaviour libpng exhibits on an exhausted source. -/
def lib_short : PngLibBehavior :=
  { lib_ok with read_info := fun _ => Except.error "Not enough data in input PNG buffer" }

/-- Benign libharu oracle: loaders return image handle 1, a current page
exists, drawing succeeds. -/
def haru_ok : HaruLib where
  load_png_image := fun _ => Except.ok 1
  load_jpeg_image := fun _ => Except.ok 1
  get_current_page_ok := true
  draw_image_res := Except.ok ()

/-- Libharu oracle for a document with no current page. -/
def haru_no_page : HaruLib :=
  { haru_ok with get_current_page_ok := false }

/-- Concrete registry holding one document with identity 1 under handle 1. -/
def reg_one : Registry := fun h => if h = 1 then some 1 else none

/-- Benign libjpeg oracle: decoding succeeds. -/
def jpeg_ok : JpegLibBehavior where
  decode := fun _ => Except.ok ()

/-- Generic source whose read always raises an exception with message `m`,
used to exercise the `catch` branch of the read callback. -/
def exn_read (m : String) : ReadFn Unit := fun _ _ => ReadRes.exn m

end WiltonPdf

namespace WiltonPdf

/-! Helper lemmas (shared infrastructure, not claim theorems). -/

/-- A removed document put back by the `defer` restores the registry
pointwise: with well-formed handles, `put` after `remove` is the identity. -/
theorem registry_restore (reg : Registry) (h d : Int)
    (hw : Registry.wellformed reg) (hd : reg h = some d) :
    ∀ h2, Registry.put (fun h2 => if h2 = h then none else reg h2) d h2 = reg h2 := by
  intro h2
  have hdh : d = h := hw h d hd
  subst hdh
  unfold Registry.put
  by_cases hh : h2 = d
  · subst hh
    simp [hd]
  · simp [hh]

/-- The registry `reg_one` is well-formed. -/
theorem reg_one_wf : Registry.wellformed reg_one := by
  intro h d hd
  by_cases h1 : h = 1
  · subst h1
    simp [reg_one] at hd
    omega
  · simp [reg_one, h1] at hd

/-- No trace of `load_image_from_hex` contains a page-draw event: the image
loading path never touches page content. -/
theorem load_image_no_page_draw (junk : List Nat) (pnglib : PngLibBehavior)
    (haru : HaruLib) (hex_decoded : Except String (List Nat)) (format : String) :
    CallEvent.page_draw ∉ (wiltoncall.load_image_from_hex junk pnglib haru hex_decoded format).2 := by
  unfold wiltoncall.load_image_from_hex
  rcases hex_decoded with m | bin
  · simp
  · by_cases hfmt : format = "PNG" ∨ format = "JPEG"
    · simp only [hfmt, if_true]
      by_cases hpng : format = "PNG"
      · simp only [hpng, if_true]
        rcases wiltoncall.check_png_valid junk pnglib { data := bin, pos := 0 } with ⟨res, evs⟩
        rcases res with m | u
        · simp
        · rcases haru.load_png_image bin with m | img <;> simp
      · simp only [hpng, if_false]
        rcases haru.load_jpeg_image bin with m | img <;> simp
    · simp [hfmt]

/-- The trace of `check_png_valid` is one of three literal shapes. -/
theorem png_trace_cases (junk : List Nat) (lib : PngLibBehavior) (span : List Nat) :
    (png_checker.check_png_valid junk lib span).2 = [] ∨
    (png_checker.check_png_valid junk lib span).2 = [PngEvent.create_read, PngEvent.destroy] ∨
    ∃ w, (png_checker.check_png_valid junk lib span).2 =
      [PngEvent.create_read, PngEvent.row_resize w, PngEvent.destroy] := by
  unfold png_checker.check_png_valid
  simp only [ArraySource.readAll]
  split
  · split
    · split
      · split
        · exact Or.inr (Or.inl rfl)
        · split
          · exact Or.inr (Or.inl rfl)
          · split
            · exact Or.inr (Or.inr ⟨_, rfl⟩)
            · exact Or.inr (Or.inr ⟨_, rfl⟩)
      · exact Or.inr (Or.inl rfl)
    · exact Or.inl rfl
  · exact Or.inl rfl

end WiltonPdf

namespace WiltonPdf

/-! Claim theorems. -/

/-- C9: the two implementations of the PNG validator — `check_png_valid` in
`png_checker.hpp` (taking a span and constructing its own source) and the
copy embedded in `wiltoncall_pdf.cpp` (taking an `array_source`) — compute
the same result (outcome, message and resource-event trace) for every input
buffer. -/
theorem c9_png_checker_copies_agree :
    ∀ (junk : List Nat) (lib : PngLibBehavior) (span : List Nat),
      png_checker.check_png_valid junk lib span =
        wiltoncall.check_png_valid junk lib { data := span, pos := 0 } :=
  fun _ _ _ => rfl

/-- C7: calling either validator twice on the same immutable buffer yields
the same result both times: a call leaves the buffer unchanged (second
component of the run wrappers), and a second call started from the state the
first call left behind produces the identical outcome. -/
theorem c7_validators_stateless_idempotent :
    ∀ (junk : List Nat) (lib : PngLibBehavior) (span : List Nat)
      (jlib : JpegLibBehavior) (jspan : List Nat),
      (check_png_valid_run junk lib span).2 = span ∧
      (check_png_valid_run junk lib ((check_png_valid_run junk lib span).2)).1 =
        (check_png_valid_run junk lib span).1 ∧
      (check_jpeg_valid_run jlib jspan).2 = jspan ∧
      (check_jpeg_valid_run jlib ((check_jpeg_valid_run jlib jspan).2)).1 =
        (check_jpeg_valid_run jlib jspan).1 :=
  fun _ _ _ _ _ => ⟨rfl, rfl, rfl, rfl⟩

/-- C1: the claim fails on the code. Evaluated at a concrete `JPEG` request
(binary payload `ff d8 ff e0`), `load_image_from_hex` invokes
`HPDF_LoadJpegImageFromMem` (the call succeeds and the trace is exactly the
loader event) while `check_jpeg_valid` is never invoked: the source contains
no call site for the JPEG validator, so the loader runs on an unvalidated
buffer. -/
theorem c1_jpeg_loader_runs_without_validation :
    (wiltoncall.load_image_from_hex [] lib_ok haru_ok
        (Except.ok [255, 216, 255, 224]) "JPEG").2 = [CallEvent.load_jpeg] ∧
    CallEvent.validate_jpeg ∉
      (wiltoncall.load_image_from_hex [] lib_ok haru_ok
        (Except.ok [255, 216, 255, 224]) "JPEG").2 ∧
    (wiltoncall.load_image_from_hex [] lib_ok haru_ok
        (Except.ok [255, 216, 255, 224]) "JPEG").1 = Except.ok 1 :=
  ⟨by decide, by decide, rfl⟩

/-- C8: a request whose declared format tag is neither `PNG` nor `JPEG`
invokes no decoder at all (the event trace is empty, whatever the hex stage
produced), and whenever the hex-to-binary conversion succeeded the failure
is precisely the unsupported-format usage error. -/
theorem c8_unsupported_format_rejected_without_decoding :
    ∀ (junk : List Nat) (pnglib : PngLibBehavior) (haru : HaruLib)
      (hex_decoded : Except String (List Nat)) (format : String),
      format ≠ "PNG" → format ≠ "JPEG" →
      (wiltoncall.load_image_from_hex junk pnglib haru hex_decoded format).2 = [] ∧
      ∀ bin, hex_decoded = Except.ok bin →
        (wiltoncall.load_image_from_hex junk pnglib haru hex_decoded format).1 =
          Except.error ("Invalid imageFormat specified: [" ++ format ++ "]") := by
  intro junk pnglib haru hex_decoded format h1 h2
  cases hex_decoded with
  | error m => exact ⟨rfl, fun bin hb => by cases hb⟩
  | ok bin =>
    have hfmt : ¬(format = "PNG" ∨ format = "JPEG") := by
      intro hc
      rcases hc with hc | hc
      · exact h1 hc
      · exact h2 hc
    constructor
    · simp [wiltoncall.load_image_from_hex, hfmt]
    · intro b hb
      simp [wiltoncall.load_image_from_hex, hfmt]

/-- Witness for C8 at the concrete tag `GIF`. -/
theorem c8_unsupported_format_rejected_without_decoding_witness :
    (("GIF" : String) ≠ "PNG" ∧ ("GIF" : String) ≠ "JPEG") ∧
    ((wiltoncall.load_image_from_hex [] lib_ok haru_ok (Except.ok [1, 2]) "GIF").2 = [] ∧
      ∀ bin, (Except.ok [1, 2] : Except String (List Nat)) = Except.ok bin →
        (wiltoncall.load_image_from_hex [] lib_ok haru_ok (Except.ok [1, 2]) "GIF").1 =
          Except.error ("Invalid imageFormat specified: [" ++ "GIF" ++ "]")) :=
  ⟨⟨by decide, by decide⟩,
    c8_unsupported_format_rejected_without_decoding [] lib_ok haru_ok
      (Except.ok [1, 2]) "GIF" (by decide) (by decide)⟩

end WiltonPdf

namespace WiltonPdf

/-- C2: whenever the decoder reports an image width above 65536 after the
info phase (the signature matched and the decoder session exists), PNG
validation fails with the dimension message, regardless of how the rest of
the stream would decode (the row/end-phase behaviour is unconstrained), and
the row buffer is never sized. -/
theorem c2_png_width_ceiling :
    ∀ (junk : List Nat) (lib : PngLibBehavior) (span : List Nat) (ht w : Nat),
      span.take 8 ++ junk.drop (span.take 8).length = pngSignature →
      lib.create_read_ok = true →
      lib.info_ok = true →
      lib.read_info (span.drop (span.take 8).length) = Except.ok (ht, w) →
      65536 < w →
      (png_checker.check_png_valid junk lib span).1 =
        Except.error ("PNG error, invalid image width: [" ++ toString w ++ "]") ∧
      ∀ e ∈ (png_checker.check_png_valid junk lib span).2, e.is_row_resize = false := by
  intro junk lib span ht w hsig hcr hio hri hw
  unfold png_checker.check_png_valid
  simp only [ArraySource.readAll, List.drop_zero, Nat.zero_add]
  rw [if_pos hsig, if_pos hcr, if_pos hio, hri]
  constructor
  · simp [hw]
  · intro e he
    simp [hw] at he
    rcases he with he | he <;> subst he <;> rfl

/-- Witness for C2: an 8-byte buffer equal to the PNG signature, with a
libpng oracle reporting width 65537. -/
theorem c2_png_width_ceiling_witness :
    (pngSignature.take 8 ++ ([] : List Nat).drop (pngSignature.take 8).length = pngSignature ∧
      lib_wide.create_read_ok = true ∧
      lib_wide.info_ok = true ∧
      lib_wide.read_info (pngSignature.drop (pngSignature.take 8).length) = Except.ok (1, 65537) ∧
      65536 < 65537) ∧
    ((png_checker.check_png_valid [] lib_wide pngSignature).1 =
        Except.error ("PNG error, invalid image width: [" ++ toString 65537 ++ "]") ∧
      ∀ e ∈ (png_checker.check_png_valid [] lib_wide pngSignature).2,
        e.is_row_resize = false) :=
  ⟨⟨by decide, rfl, rfl, rfl, by decide⟩,
    c2_png_width_ceiling [] lib_wide pngSignature 1 65537 (by decide) rfl rfl rfl (by decide)⟩

/-- C4: when a PNG decoder session exists (the create event is in the
trace), the trace ends with the single unconditional destroy event (the
cleanup runs exactly once, as the last action, on success, ceiling
rejection, struct-creation failure and decoder error alike), and a JPEG
validation trace is always exactly create-then-destroy. -/
theorem c4_decoder_session_released_on_every_path :
    ∀ (junk : List Nat) (lib : PngLibBehavior) (span : List Nat)
      (jlib : JpegLibBehavior) (jspan : List Nat),
      PngEvent.create_read ∈ (png_checker.check_png_valid junk lib span).2 →
      (∃ pre, (png_checker.check_png_valid junk lib span).2 = pre ++ [PngEvent.destroy] ∧
        PngEvent.destroy ∉ pre) ∧
      (jpeg_checker.check_jpeg_valid jlib jspan).2 =
        [JpegEvent.create_decompress, JpegEvent.destroy_decompress] := by
  intro junk lib span jlib jspan hmem
  constructor
  · rcases png_trace_cases junk lib span with h | h | ⟨w, h⟩
    · rw [h] at hmem
      cases hmem
    · rw [h]
      exact ⟨[PngEvent.create_read], rfl, by decide⟩
    · rw [h]
      refine ⟨[PngEvent.create_read, PngEvent.row_resize w], rfl, ?_⟩
      simp
  · unfold jpeg_checker.check_jpeg_valid
    rcases jlib.decode jspan with m | u <;> rfl

/-- Witness for C4 at a concrete successful PNG validation and a concrete
JPEG validation. -/
theorem c4_decoder_session_released_on_every_path_witness :
    PngEvent.create_read ∈ (png_checker.check_png_valid [] lib_ok pngSignature).2 ∧
    ((∃ pre, (png_checker.check_png_valid [] lib_ok pngSignature).2 =
        pre ++ [PngEvent.destroy] ∧ PngEvent.destroy ∉ pre) ∧
      (jpeg_checker.check_jpeg_valid jpeg_ok [255, 216]).2 =
        [JpegEvent.create_decompress, JpegEvent.destroy_decompress]) :=
  ⟨by decide,
    c4_decoder_session_released_on_every_path [] lib_ok pngSignature jpeg_ok [255, 216]
      (by decide)⟩

end WiltonPdf

namespace WiltonPdf

/-- C5 counterexample: the claim, as stated, fails at a concrete input. The
7-byte buffer holding the first seven PNG signature bytes is shorter than 8
bytes, yet when the indeterminate initial content of the 8-byte stack
signature buffer ends in the byte 10 (the `junk` parameter — `read_all`'s
short-read count is ignored, so the unwritten tail keeps that content), the
signature comparison succeeds: validation fails with a decode error, not
with the invalid-signature error, and the decoder session is created. -/
theorem c5_short_buffer_counterexample :
    ([137, 80, 78, 71, 13, 10, 26] : List Nat).length < 8 ∧
    (png_checker.check_png_valid [0, 0, 0, 0, 0, 0, 0, 10] lib_short
        [137, 80, 78, 71, 13, 10, 26]).1 =
      Except.error "PNG read error, message: [Not enough data in input PNG buffer]" ∧
    ("PNG read error, message: [Not enough data in input PNG buffer]" : String) ≠
      "Invalid PNG signature" ∧
    PngEvent.create_read ∈ (png_checker.check_png_valid [0, 0, 0, 0, 0, 0, 0, 10] lib_short
        [137, 80, 78, 71, 13, 10, 26]).2 :=
  ⟨by decide, rfl, by decide, by decide⟩

/-- C5 (amended): a buffer shorter than 8 bytes whose contents are not a
prefix of the PNG signature always fails validation with the
invalid-signature error and produces no decoder event, whatever the
indeterminate bytes and the decoder behaviour; the original unconditional
claim fails because the short-read count of `read_all` is ignored and the
unwritten tail of the signature buffer is uninitialized. -/
theorem c5_short_buffer_amended :
    ∀ (junk : List Nat) (lib : PngLibBehavior) (span : List Nat),
      span.length < 8 →
      span ≠ pngSignature.take span.length →
      (png_checker.check_png_valid junk lib span).1 =
        Except.error "Invalid PNG signature" ∧
      (png_checker.check_png_valid junk lib span).2 = [] := by
  intro junk lib span hlen hpre
  have htake : span.take 8 = span := List.take_of_length_le (Nat.le_of_lt hlen)
  have hsig : span.take 8 ++ junk.drop (span.take 8).length ≠ pngSignature := by
    rw [htake]
    intro heq
    apply hpre
    calc span = (span ++ junk.drop span.length).take span.length := (List.take_left span _).symm
      _ = pngSignature.take span.length := by rw [heq]
  unfold png_checker.check_png_valid
  simp only [ArraySource.readAll, List.drop_zero, Nat.zero_add]
  rw [if_neg hsig]
  exact ⟨rfl, rfl⟩

/-- Witness for the amended C5 at a concrete 3-byte non-prefix buffer. -/
theorem c5_short_buffer_amended_witness :
    (([1, 2, 3] : List Nat).length < 8 ∧
      ([1, 2, 3] : List Nat) ≠ pngSignature.take ([1, 2, 3] : List Nat).length) ∧
    ((png_checker.check_png_valid pngSignature lib_ok [1, 2, 3]).1 =
        Except.error "Invalid PNG signature" ∧
      (png_checker.check_png_valid pngSignature lib_ok [1, 2, 3]).2 = []) :=
  ⟨⟨by decide, by decide⟩,
    c5_short_buffer_amended pngSignature lib_ok [1, 2, 3] (by decide) (by decide)⟩

end WiltonPdf

namespace WiltonPdf

/-- C6: if `draw_image` fails for any reason after the document handle was
successfully looked up — no current page, hex-decode failure, validation
failure, loader failure or draw failure — the registry is pointwise
unchanged (the document is back under its original handle) and no page-draw
event occurred. -/
theorem c6_draw_image_fails_atomically :
    ∀ (parse : Except String Int) (junk : List Nat) (pnglib : PngLibBehavior)
      (haru : HaruLib) (hex_decoded : Except String (List Nat)) (format : String)
      (reg : Registry) (h d : Int) (e : String),
      Registry.wellformed reg →
      parse = Except.ok h →
      reg h = some d →
      (wiltoncall.draw_image parse junk pnglib haru hex_decoded format reg).1 =
        Except.error e →
      (∀ h2, (wiltoncall.draw_image parse junk pnglib haru hex_decoded format reg).2.1 h2 =
        reg h2) ∧
      CallEvent.page_draw ∉
        (wiltoncall.draw_image parse junk pnglib haru hex_decoded format reg).2.2 := by
  intro parse junk pnglib haru hex_decoded format reg h d e hw hp hd herr
  subst hp
  unfold wiltoncall.draw_image at herr ⊢
  simp only [Registry.remove] at herr ⊢
  rw [hd] at herr ⊢
  by_cases hpage : haru.get_current_page_ok
  · simp only [hpage, if_true] at herr ⊢
    rcases hli : wiltoncall.load_image_from_hex junk pnglib haru hex_decoded format with ⟨res, evs⟩
    rcases res with m | img
    · refine ⟨registry_restore reg h d hw hd, ?_⟩
      have hnp := load_image_no_page_draw junk pnglib haru hex_decoded format
      rw [hli] at hnp
      exact hnp
    · rcases hdr : haru.draw_image_res with m | u
      · refine ⟨registry_restore reg h d hw hd, ?_⟩
        have hnp := load_image_no_page_draw junk pnglib haru hex_decoded format
        rw [hli] at hnp
        exact hnp
      · rw [hli] at herr
        simp [hdr] at herr
  · simp only [hpage, if_false] at herr ⊢
    exact ⟨registry_restore reg h d hw hd, fun hc => by cases hc⟩

/-- Witness for C6: a one-document registry, a request for handle 1, and a
document with no current page. -/
theorem c6_draw_image_fails_atomically_witness :
    (Registry.wellformed reg_one ∧
      (Except.ok 1 : Except String Int) = Except.ok 1 ∧
      reg_one 1 = some 1 ∧
      (wiltoncall.draw_image (Except.ok 1) [] lib_ok haru_no_page
          (Except.ok []) "PNG" reg_one).1 =
        Except.error "PDF generation error, cannot access current page, please add at least one page to the document first") ∧
    ((∀ h2, (wiltoncall.draw_image (Except.ok 1) [] lib_ok haru_no_page
        (Except.ok []) "PNG" reg_one).2.1 h2 = reg_one h2) ∧
      CallEvent.page_draw ∉ (wiltoncall.draw_image (Except.ok 1) [] lib_ok haru_no_page
        (Except.ok []) "PNG" reg_one).2.2) :=
  ⟨⟨reg_one_wf, rfl, rfl, rfl⟩,
    c6_draw_image_fails_atomically (Except.ok 1) [] lib_ok haru_no_page
      (Except.ok []) "PNG" reg_one 1 1 _ reg_one_wf rfl rfl rfl⟩

/-- C10: with well-formed handles, every registered document operation that
removes the document from the registry, except `destroy_document`, leaves
the registry pointwise unchanged on every exit path (parse failure, invalid
handle, body failure or success), so a previously valid handle stays valid;
`destroy_document` alone removes the handle permanently and frees the
document. -/
theorem c10_operations_preserve_registry :
    ∀ reg : Registry, Registry.wellformed reg → registry_discipline reg := by
  intro reg hw
  have hop : ∀ (p : Except String Int) (b : Except String Unit) (h2 : Int),
      (wiltoncall.load_font p b reg).2 h2 = reg h2 := by
    intro p b h2
    cases p with
    | error m => rfl
    | ok handle =>
      unfold wiltoncall.load_font
      simp only [Registry.remove]
      cases hr : reg handle with
      | none => rfl
      | some d =>
        cases b with
        | error m => exact registry_restore reg handle d hw hr h2
        | ok u => exact registry_restore reg handle d hw hr h2
  have hdi : ∀ (p : Except String Int) (junk : List Nat) (pnglib : PngLibBehavior)
      (haru : HaruLib) (hx : Except String (List Nat)) (fmt : String) (h2 : Int),
      (wiltoncall.draw_image p junk pnglib haru hx fmt reg).2.1 h2 = reg h2 := by
    intro p junk pnglib haru hx fmt h2
    cases p with
    | error m => rfl
    | ok handle =>
      unfold wiltoncall.draw_image
      simp only [Registry.remove]
      cases hr : reg handle with
      | none => rfl
      | some d =>
        by_cases hpage : haru.get_current_page_ok
        · simp only [hpage, if_true]
          rcases wiltoncall.load_image_from_hex junk pnglib haru hx fmt with ⟨res, evs⟩
          rcases res with m | img
          · exact registry_restore reg handle d hw hr h2
          · rcases haru.draw_image_res with m | u
            · exact registry_restore reg handle d hw hr h2
            · exact registry_restore reg handle d hw hr h2
        · simp only [hpage, if_false]
          exact registry_restore reg handle d hw hr h2
  have hdd : ∀ (h d : Int), reg h = some d →
      (wiltoncall.destroy_document (Except.ok h) reg).2.1 h = none ∧
      (∀ h2, h2 ≠ h → (wiltoncall.destroy_document (Except.ok h) reg).2.1 h2 = reg h2) ∧
      (wiltoncall.destroy_document (Except.ok h) reg).2.2 = true := by
    intro h d hd
    unfold wiltoncall.destroy_document
    simp only [Registry.remove]
    rw [hd]
    refine ⟨by simp, fun h2 hne => by simp [hne], rfl⟩
  exact ⟨hop, hop, hop, hop, hop, hop, hop, hdi, hdd⟩

/-- Witness for C10 at the concrete one-document registry. -/
theorem c10_operations_preserve_registry_witness :
    Registry.wellformed reg_one ∧ registry_discipline reg_one :=
  ⟨reg_one_wf, c10_operations_preserve_registry reg_one reg_one_wf⟩

end WiltonPdf

namespace WiltonPdf

/-- Unfolding equation of `array_read` on an explicit source. -/
theorem array_read_mk (data : List Nat) (pos n : Nat) :
    array_read { data := data, pos := pos } n =
      ReadRes.bytes ((data.drop pos).take n)
        { data := data, pos := pos + ((data.drop pos).take n).length } := rfl

/-- Behaviour of the read-callback copy loop on an exhausted `array_source`:
when the source holds fewer bytes than remain to be read, the loop delivers
some `k` further bytes from the source, zero-fills the rest of the
destination and reports the short read (`r` bytes) and the delivered count. -/
theorem cbLoop_array_shortfall :
    ∀ (n : Nat) (data : List Nat) (pos toRead count : Nat) (acc : List Nat),
      toRead - count = n →
      data.length - pos < toRead - count →
      ∃ r k,
        cbLoop array_read { data := data, pos := pos } toRead count acc =
          LoopRes.shortfall
            (acc ++ (data.drop pos).take k ++ List.replicate (toRead - (count + k)) 0)
            r (count + k) ∧
        k + r = data.length - pos ∧
        r < toRead - (count + k) := by
  intro n
  induction n using Nat.strong_induction_on with
  | _ n ih =>
    intro data pos toRead count acc hn hrem
    have h0 : 0 < toRead - count := by omega
    unfold cbLoop
    rw [dif_pos h0]
    by_cases hle : toRead - count ≤ 1024
    · rw [if_pos hle]
      simp only [array_read_mk]
      have hlen : ((data.drop pos).take (toRead - count)).length = data.length - pos := by
        simp only [List.length_take, List.length_drop]
        omega
      have hne : ((data.drop pos).take (toRead - count)).length ≠ toRead - count := by
        rw [hlen]
        omega
      rw [dif_neg hne]
      refine ⟨data.length - pos, 0, ?_, by omega, by omega⟩
      rw [hlen]
      simp
    · rw [if_neg hle]
      simp only [array_read_mk]
      by_cases hge : 1024 ≤ data.length - pos
      · have hlen : ((data.drop pos).take 1024).length = 1024 := by
          simp only [List.length_take, List.length_drop]
          omega
        rw [dif_pos hlen, hlen]
        obtain ⟨r, k2, heq, hsum, hlt⟩ :=
          ih (toRead - (count + 1024)) (by omega) data (pos + 1024) toRead (count + 1024)
            (acc ++ (data.drop pos).take 1024) rfl (by omega)
        refine ⟨r, 1024 + k2, ?_, by omega, by omega⟩
        rw [heq, List.take_add, List.drop_drop]
        simp [List.append_assoc, Nat.add_assoc]
      · have hlen : ((data.drop pos).take 1024).length = data.length - pos := by
          simp only [List.length_take, List.length_drop]
          omega
        have hne : ((data.drop pos).take 1024).length ≠ 1024 := by
          rw [hlen]
          omega
        rw [dif_neg hne]
        refine ⟨data.length - pos, 0, ?_, by omega, by omega⟩
        rw [hlen]
        simp

/-- C3: the PNG read hook contract. When the source holds fewer bytes than
the decoder requests, the hook returns through the error-hook escalation
with the destination holding the delivered bytes followed by a zero-filled
remainder, and the recorded message states the bytes requested, the bytes
actually read by the failing read, and the bytes already delivered. When an
exception is raised while copying, it is caught locally: the hook still
returns through the error-hook escalation (its result type has no
exception alternative, so nothing propagates across the decoder's frame),
with the whole destination zero-filled and the exception message recorded. -/
theorem c3_png_read_hook_contract :
    (∀ (src : ArraySource) (toRead : Nat) (errmsg : String),
      src.remaining < toRead →
      ∃ r c,
        png_src_read_cb array_read src errmsg toRead =
          CbRes.pngError
            ((src.data.drop src.pos).take c ++ List.replicate (toRead - c) 0)
            (errmsg ++ shortfallMsg toRead r c) ∧
        c + r = src.remaining ∧
        r < toRead - c) ∧
    (∀ (errmsg m : String) (toRead : Nat), 0 < toRead →
      png_src_read_cb (exn_read m) () errmsg toRead =
        CbRes.pngError (List.replicate toRead 0) m) := by
  constructor
  · intro src toRead errmsg hrem
    obtain ⟨data, pos⟩ := src
    have hrem2 : data.length - pos < toRead - 0 := by
      have : data.length - pos < toRead := hrem
      omega
    obtain ⟨r, k, heq, hsum, hlt⟩ :=
      cbLoop_array_shortfall (toRead - 0) data pos toRead 0 [] rfl hrem2
    refine ⟨r, k, ?_, ?_, by omega⟩
    · unfold png_src_read_cb
      rw [heq]
      simp
    · exact hsum
  · intro errmsg m toRead h0
    unfold png_src_read_cb
    unfold cbLoop
    rw [dif_pos (show 0 < toRead - 0 by omega)]
    rfl

/-- Witness for C3: a 2-byte source asked for 4 bytes, and a source whose
read raises an exception. -/
theorem c3_png_read_hook_contract_witness :
    ((ArraySource.mk [5, 6] 0).remaining < 4 ∧ (0 : Nat) < 4) ∧
    (∃ r c,
      png_src_read_cb array_read (ArraySource.mk [5, 6] 0) "" 4 =
        CbRes.pngError
          (((ArraySource.mk [5, 6] 0).data.drop (ArraySource.mk [5, 6] 0).pos).take c ++
            List.replicate (4 - c) 0)
          ("" ++ shortfallMsg 4 r c) ∧
      c + r = (ArraySource.mk [5, 6] 0).remaining ∧
      r < 4 - c) ∧
    png_src_read_cb (exn_read "boom") () "" 4 =
      CbRes.pngError (List.replicate 4 0) "boom" :=
  ⟨⟨by decide, by decide⟩,
    c3_png_read_hook_contract.1 (ArraySource.mk [5, 6] 0) 4 "" (by decide),
    c3_png_read_hook_contract.2 "" "boom" 4 (by decide)⟩

end WiltonPdf
